import Mathlib

/-!
Shallow embedding of `src/simple_bot.py` (Simple SVG to TGS Telegram Bot).

The bot's state is in-memory only: three user-id sets (admins, banned,
known users) in `SimpleConfig`, plus per-user pending batches and
processing tasks in `SimpleSVGToTGSBot`.  Handlers are `async` methods that
read/mutate this state and call the Telegram transport
(`send_message`, `send_document`, `edit_message_text`, `reply_text`).

We embed each handler as a pure function from the state (plus the data the
transport would deliver: user id, chat id, filename, bytes, parsed command
argument) to the new state together with the ordered list of transport
sends it performs.  Telegram user ids and chat ids are `Nat`; Python sets
of ids are `Finset Nat`; the `user_batches` dict is an association list;
byte strings are `List Nat`.  External effects that the code only branches
on (subprocess exit code, output file size, XML parse result, per-recipient
send success) are inputs to the embedded functions.
-/

/-- A transport send performed by a handler, in order of occurrence:
`reply_text` / `send_message` (a text to a chat), `send_document`
(a converted file with a caption), or `edit_message_text`. -/
inductive Send where
  | message (chatId : Nat) (text : String)
  | document (chatId : Nat) (filename : String) (caption : String)
  | editMessage (chatId : Nat) (messageId : Nat) (text : String)
  deriving DecidableEq, Repr

/-- The configuration constants of `SimpleConfig.__init__`
(`src/simple_bot.py:29-62`), without the transport credentials. -/
structure SimpleConfig where
  owner_id : Nat
  max_file_size : Nat
  max_batch_size : Nat
  processing_delay : Nat
  batch_timeout : Nat
  deriving DecidableEq, Repr

/-- The default constants assigned in `SimpleConfig.__init__`:
5 MiB file ceiling, batch size 15, 3 s debounce, 300 s batch timeout. -/
def defaultConfig (owner : Nat) : SimpleConfig :=
  { owner_id := owner
    max_file_size := 5 * 1024 * 1024
    max_batch_size := 15
    processing_delay := 3
    batch_timeout := 300 }

/-- The three mutable user-id sets of `SimpleConfig`:
`admin_users`, `banned_users`, `all_users` (`src/simple_bot.py:56-58`). -/
structure ModState where
  admin_users : Finset Nat
  banned_users : Finset Nat
  all_users : Finset Nat
  deriving DecidableEq

/-- The set initialisation at the end of `SimpleConfig.__init__`
(`src/simple_bot.py:56-62`): all three sets start empty, then
`if self.owner_id: self.admin_users.add(self.owner_id)` — the owner is
seeded into `admin_users` only when `owner_id` is truthy (non-zero). -/
def initModState (cfg : SimpleConfig) : ModState :=
  { admin_users := if cfg.owner_id ≠ 0 then {cfg.owner_id} else ∅
    banned_users := ∅
    all_users := ∅ }

/-- State effect of `ban_command` (`src/simple_bot.py:554-584`).
`target = none` models a missing or non-numeric argument (the `not
context.args` and `ValueError` branches), both of which reply with an
error and leave the sets unchanged.  Otherwise: denied unless the caller
is an admin; denied when the target is the owner or the caller himself;
else the target is added to `banned_users`. -/
def banStep (cfg : SimpleConfig) (st : ModState) (actor : Nat) (target : Option Nat) :
    ModState :=
  if actor ∉ st.admin_users then st
  else match target with
    | none => st
    | some t =>
      if t = cfg.owner_id then st
      else if t = actor then st
      else { st with banned_users := insert t st.banned_users }

/-- State effect of `unban_command` (`src/simple_bot.py:586-607`):
admins may `discard` any id from `banned_users` (no-op when absent). -/
def unbanStep (st : ModState) (actor : Nat) (target : Option Nat) : ModState :=
  if actor ∉ st.admin_users then st
  else match target with
    | none => st
    | some t => { st with banned_users := st.banned_users.erase t }

/-- State effect of `make_admin_command` (`src/simple_bot.py:629-650`):
only the owner may add an id to `admin_users`. -/
def makeAdminStep (cfg : SimpleConfig) (st : ModState) (actor : Nat)
    (target : Option Nat) : ModState :=
  if actor ≠ cfg.owner_id then st
  else match target with
    | none => st
    | some t => { st with admin_users := insert t st.admin_users }

/-- State effect of `remove_admin_command` (`src/simple_bot.py:652-678`):
only the owner may remove, and removing the owner is denied. -/
def removeAdminStep (cfg : SimpleConfig) (st : ModState) (actor : Nat)
    (target : Option Nat) : ModState :=
  if actor ≠ cfg.owner_id then st
  else match target with
    | none => st
    | some t =>
      if t = cfg.owner_id then st
      else { st with admin_users := st.admin_users.erase t }

/-- A moderation operation: one invocation of a ban/unban/makeadmin/
removeadmin command with its caller and (possibly absent) parsed target. -/
inductive ModOp where
  | ban (actor : Nat) (target : Option Nat)
  | unban (actor : Nat) (target : Option Nat)
  | makeAdmin (actor : Nat) (target : Option Nat)
  | removeAdmin (actor : Nat) (target : Option Nat)
  deriving DecidableEq, Repr

/-- Dispatch one moderation operation to its command's state effect. -/
def modStep (cfg : SimpleConfig) (st : ModState) : ModOp → ModState
  | ModOp.ban a t => banStep cfg st a t
  | ModOp.unban a t => unbanStep st a t
  | ModOp.makeAdmin a t => makeAdminStep cfg st a t
  | ModOp.removeAdmin a t => removeAdminStep cfg st a t

/-- Run a sequence of moderation operations from a state. -/
def runModOps (cfg : SimpleConfig) (st : ModState) : List ModOp → ModState
  | [] => st
  | op :: rest => runModOps cfg (modStep cfg st op) rest

/-! ### Character-list helpers

Python string operations used by the bot (`str.lower`, `str.endswith`,
substring membership `in`) are embedded as executable functions on
`List Char`. -/

/-- `s.lower()` as a character list: `Char.toLower` applied pointwise. -/
def lowerChars (s : String) : List Char := s.toList.map Char.toLower

/-- Whether the first list is an initial segment of the second. -/
def listStartsWith : List Char → List Char → Bool
  | [], _ => true
  | _ :: _, [] => false
  | a :: as, b :: bs => a == b && listStartsWith as bs

/-- Python's substring test `needle in hay`. -/
def listHasSub (needle : List Char) : List Char → Bool
  | [] => listStartsWith needle []
  | c :: rest => listStartsWith needle (c :: rest) || listHasSub needle rest

/-- Python's `hay.endswith(s)`. -/
def listEndsWith (s hay : List Char) : Bool :=
  listStartsWith s.reverse hay.reverse

/-- The closing-brace character (code point 125), used by
`xml.etree.ElementTree` to delimit the namespace URI in an expanded tag. -/
def rbraceChar : Char := Char.ofNat 125

/-! ### Validator (`SVGValidator`, `src/simple_bot.py:64-114`)

An uploaded byte sequence is embedded by its observations: the text it
decodes to (`decode('utf-8', errors='ignore')` cannot raise), its byte
length, and the result of handing the bytes to the external XML parser
(`ET.fromstring`): `some tag` gives the root element's expanded tag,
`none` models a `ParseError`.  The validator methods return only the
boolean of the `(bool, str)` pair; the paired human-readable messages
(one of which uses float formatting) are elided, no claim depends on
them. -/

/-- Observations of one uploaded byte sequence. -/
structure SvgFile where
  content : String
  size : Nat
  parsedRoot : Option String

/-- `SVGValidator.validate_file_size` (`src/simple_bot.py:71-78`):
fails exactly when `len(file_data) > self.max_file_size`. -/
def validate_file_size (maxFileSize : Nat) (f : SvgFile) : Bool :=
  if f.size > maxFileSize then false else true

/-- `SVGValidator.validate_svg_format` (`src/simple_bot.py:80-99`):
first requires `'<svg'` or `'<?xml'` to occur in the lowercased decoded
text; then parses the bytes, failing on `ParseError`; finally requires
the root's lowercased tag to end with `'svg'`. -/
def validate_svg_format (f : SvgFile) : Bool :=
  if !(listHasSub "<svg".toList (lowerChars f.content) ||
       listHasSub "<?xml".toList (lowerChars f.content)) then false
  else
    match f.parsedRoot with
    | none => false
    | some tag => if listEndsWith "svg".toList (lowerChars tag) then true else false

/-- `SVGValidator.validate_file` (`src/simple_bot.py:101-114`): extension
check, then size check, then format check, short-circuiting. -/
def validate_file (maxFileSize : Nat) (f : SvgFile) (filename : String) : Bool :=
  if !(listEndsWith ".svg".toList (lowerChars filename)) then false
  else if !(validate_file_size maxFileSize f) then false
  else validate_svg_format f

/-- The part of an expanded tag after the first closing brace — the root
element's local name in `ET`'s `\x7buri\x7dlocal` convention; `none` when
the tag carries no namespace. -/
def localNameAux : List Char → Option (List Char)
  | [] => none
  | c :: cs => if c = rbraceChar then some cs else localNameAux cs

/-- The local name of an expanded XML tag: the part after the namespace
delimiter when one is present, the whole tag otherwise. -/
def localName (tag : String) : List Char :=
  match localNameAux tag.toList with
  | some rest => rest
  | none => tag.toList

/-- The claim's hypothesis on the document content: the bytes parse as
well-formed markup and the root element's local name is `svg`. -/
def wellFormedWithSvgRoot (f : SvgFile) : Prop :=
  ∃ t, f.parsedRoot = some t ∧ localName t = "svg".toList

/-- A well-formed 45-byte SVG document that declares the SVG namespace
through the prefix `s`: `<s:svg xmlns:s="http://www.w3.org/2000/svg"/>`.
`ET.fromstring` accepts it and expands the root tag to
`\x7bhttp://www.w3.org/2000/svg\x7dsvg`, whose local name is `svg`; but the
serialised text contains neither `<svg` nor `<?xml`. -/
def nsSvgFile : SvgFile :=
  { content := "<s:svg xmlns:s=\"http://www.w3.org/2000/svg\"/>"
    size := 45
    parsedRoot := some "\x7bhttp://www.w3.org/2000/svg\x7dsvg" }

/-! ### Converter (`SVGToTGSConverter`, `src/simple_bot.py:116-238`)

The external conversion process is an input: its exit status and the
state of the output artifact it left behind (`none` = no file, `some n`
= a file of `n` bytes), plus the bytes read back on success. -/

/-- `SVGToTGSConverter._run_lottie_convert` (`src/simple_bot.py:159-233`),
from the point where the subprocess has exited: non-zero exit status →
`False`; missing or zero-byte output file → `False`; an output above
64 KiB only logs a warning; otherwise `True`. -/
def run_lottie_convert (returncode : Int) (output : Option Nat) : Bool :=
  if returncode ≠ 0 then false
  else
    match output with
    | none => false
    | some sz =>
      if sz = 0 then false
      else
        -- `sz > 64 * 1024` triggers `logger.warning` only; control
        -- continues to `return True`.
        true

/-- `SVGToTGSConverter.convert_svg_to_tgs` (`src/simple_bot.py:124-157`):
returns the output bytes when `_run_lottie_convert` succeeded and the
output path exists, `None` otherwise.  (The scratch directory handling
and the exception path, which also returns `None`, are not modelled.) -/
def convert_svg_to_tgs (returncode : Int) (output : Option Nat)
    (tgsBytes : List Nat) : Option (List Nat) :=
  if run_lottie_convert returncode output && output.isSome then some tgsBytes
  else none

/-- `SVGToTGSConverter.get_tgs_filename` (`src/simple_bot.py:235-238`):
`Path(svg_filename).stem + ".tgs"` — the name up to the last dot.  (Path
components and hidden-file names consisting only of a leading dot are
not modelled; uploaded Telegram file names are plain.) -/
def get_tgs_filename (svg_filename : String) : String :=
  let cs := svg_filename.toList
  let stem :=
    if cs.contains '.' then ((cs.reverse.dropWhile (fun c => c != '.')).tail).reverse
    else cs
  String.mk stem ++ ".tgs"

/-! ### Batch aggregation (`SimpleSVGToTGSBot`, `src/simple_bot.py:240-504`)

`self.user_batches : Dict[int, List]` is an association list from user id
to the file dicts appended so far; `self.processing_tasks : Dict[int,
asyncio.Task]` is tracked as the list of user ids that own a scheduled
task.  Keys are unique in every reachable state. -/

/-- One entry of a user's batch: the dict
`\x7b'data': file_data, 'filename': filename\x7d` built in `add_to_batch`. -/
structure FileEntry where
  data : List Nat
  filename : String
  deriving DecidableEq

/-- `self.user_batches.get(user_id)` on the association list. -/
def lookupBatch : List (Nat × List FileEntry) → Nat → Option (List FileEntry)
  | [], _ => none
  | (v, fs) :: rest, u => if v = u then some fs else lookupBatch rest u

/-- `self.user_batches[user_id] = fs` on the association list. -/
def setBatch : List (Nat × List FileEntry) → Nat → List FileEntry →
    List (Nat × List FileEntry)
  | [], u, fs => [(u, fs)]
  | (v, g) :: rest, u, fs =>
    if v = u then (u, fs) :: rest else (v, g) :: setBatch rest u fs

/-- `del self.user_batches[user_id]` on the association list (removes
every binding of the key; keys are unique in reachable states). -/
def delBatch : List (Nat × List FileEntry) → Nat → List (Nat × List FileEntry)
  | [], _ => []
  | (v, g) :: rest, u =>
    if v = u then delBatch rest u else (v, g) :: delBatch rest u

/-- The bot's per-user batching state: `user_batches` and the owners of
entries in `processing_tasks` (`src/simple_bot.py:253-254`). -/
structure BatchState where
  user_batches : List (Nat × List FileEntry)
  processing_tasks : List Nat
  deriving DecidableEq

/-- The initial status notification of `add_to_batch`
(`src/simple_bot.py:376-379`). -/
def statusWaitText : String := "⏳ Please wait, processing for 3 seconds..."

/-- What one `add_to_batch` call produced: the new state, the transport
sends it performed, and whether it created a new processing task
(`asyncio.create_task(self.process_batch_after_delay(...))`). -/
structure AddOutcome where
  state : BatchState
  sends : List Send
  scheduled : Bool
  deriving DecidableEq

/-- `SimpleSVGToTGSBot.add_to_batch` (`src/simple_bot.py:370-401`): when
the user has no pending batch, create an empty one, send the initial
status message and schedule the single delayed processing task; then (in
either case) append the file to the user's batch.  The
`len(...) > 1` branch (`src/simple_bot.py:394-401`) only contains `pass`
and performs no send and no state change.  The configuration is passed
but never consulted. -/
def add_to_batch (cfg : SimpleConfig) (st : BatchState) (u chat : Nat)
    (f : FileEntry) : AddOutcome :=
  match lookupBatch st.user_batches u with
  | none =>
    let created : BatchState :=
      { user_batches := setBatch st.user_batches u []
        processing_tasks := st.processing_tasks ++ [u] }
    let fs := (lookupBatch created.user_batches u).getD []
    { state := { created with user_batches := setBatch created.user_batches u (fs ++ [f]) }
      sends := [Send.message chat statusWaitText]
      scheduled := true }
  | some fs =>
    { state := { st with user_batches := setBatch st.user_batches u (fs ++ [f]) }
      sends := []
      scheduled := false }

/-- A sequence of `add_to_batch` calls for the same user arriving within
one debounce window (the scheduled task has not fired in between):
returns the final state, the concatenated sends, and how many processing
tasks were created along the way. -/
def addAll (cfg : SimpleConfig) (st : BatchState) (u chat : Nat) :
    List FileEntry → BatchState × List Send × Nat
  | [] => (st, [], 0)
  | f :: rest =>
    let r := add_to_batch cfg st u chat f
    let q := addAll cfg r.state u chat rest
    (q.1, r.sends ++ q.2.1, (if r.scheduled then 1 else 0) + q.2.2)

/-- Outcome of handling one file inside the `process_batch_after_delay`
loop (`src/simple_bot.py:424-472`): validation rejected it, conversion
returned `None`, conversion produced TGS bytes, or the per-file `try`
raised. -/
inductive FileOutcome where
  | invalid (reason : String)
  | convertFailed
  | converted (tgs : List Nat)
  | procError (msg : String)
  deriving DecidableEq

/-- One iteration of the batch loop: the sends it performs and its
increments to `successful_conversions` and `failed_conversions`. -/
def processFile (chat : Nat) (oracle : FileEntry → FileOutcome) (f : FileEntry) :
    List Send × Nat × Nat :=
  match oracle f with
  | FileOutcome.invalid reason =>
    ([Send.message chat ("❌ " ++ f.filename ++ "\n" ++ reason)], 0, 1)
  | FileOutcome.convertFailed =>
    ([Send.message chat ("❌ " ++ f.filename ++ "\nConversion failed")], 0, 1)
  | FileOutcome.converted _ =>
    ([Send.document chat (get_tgs_filename f.filename)
        ("✅ " ++ f.filename ++ " → " ++ get_tgs_filename f.filename)], 1, 0)
  | FileOutcome.procError e =>
    ([Send.message chat ("❌ " ++ f.filename ++ "\nProcessing error: " ++ e)], 0, 1)

/-- The batch loop (`src/simple_bot.py:424-472`): files in arrival
order, accumulating sends and the two counters. -/
def processLoop (chat : Nat) (oracle : FileEntry → FileOutcome) :
    List FileEntry → List Send × Nat × Nat
  | [] => ([], 0, 0)
  | f :: rest =>
    let a := processFile chat oracle f
    let b := processLoop chat oracle rest
    (a.1 ++ b.1, a.2.1 + b.2.1, a.2.2 + b.2.2)

/-- The final summary text (`src/simple_bot.py:474-480`): start from
`"Done ✅"` when anything succeeded, appending the counts line only when
something also failed; all-failed otherwise. -/
def finalStatusText (successful_conversions failed_conversions : Nat) : String :=
  if successful_conversions > 0 then
    if failed_conversions > 0 then
      "Done ✅" ++ "\n✅ " ++ toString successful_conversions ++ " converted | ❌ " ++
        toString failed_conversions ++ " failed"
    else "Done ✅"
  else "❌ No files could be converted"

/-- The claim's reading of "the summary shows the counts of succeeded
and failed files": both counts occur in the summary text with their
labels. -/
def showsCounts (successful_conversions failed_conversions : Nat) (text : String) : Bool :=
  listHasSub (toString successful_conversions ++ " converted").toList text.toList &&
    listHasSub (toString failed_conversions ++ " failed").toList text.toList

/-- `SimpleSVGToTGSBot.process_batch_after_delay`
(`src/simple_bot.py:403-504`) from the moment the debounce sleep ends:
read the user's batch (empty → return with no sends), edit the status
message to "Converting ...", run the loop, edit the status message to
the final summary.  `crash = true` models an unexpected exception raised
during the `try` block: the `except` arm edits the status message to the
generic failure text instead (any sends already performed before the
exception are elided).  The `finally` block always deletes the user's
`user_batches` and `processing_tasks` entries. -/
def process_batch_after_delay (st : BatchState) (u chat status_message_id : Nat)
    (oracle : FileEntry → FileOutcome) (crash : Bool) : BatchState × List Send :=
  let batch := (lookupBatch st.user_batches u).getD []
  let cleaned : BatchState :=
    { user_batches := delBatch st.user_batches u
      processing_tasks := st.processing_tasks.filter (· ≠ u) }
  if batch = [] then (cleaned, [])
  else if crash then
    (cleaned, [Send.editMessage chat status_message_id "❌ Batch processing failed"])
  else
    let p := processLoop chat oracle batch
    (cleaned,
      [Send.editMessage chat status_message_id
          ("🔄 Converting " ++ toString batch.length ++ " files...")] ++
        p.1 ++
        [Send.editMessage chat status_message_id (finalStatusText p.2.1 p.2.2)])

/-! ### Inbound handlers (`src/simple_bot.py:288-368, 708-758`) -/

/-- The reply of `handle_svg_document` to a banned user
(`src/simple_bot.py:315`). -/
def bannedNoticeText : String := "❌ You have been banned from using this bot."

/-- The `/start` greeting (`src/simple_bot.py:293-305`). -/
def welcomeText : String :=
  "🎨 **SVG to TGS Converter Bot**\n\n" ++
  "Welcome! I can convert your SVG files to TGS format for Telegram stickers.\n\n" ++
  "📝 **How to use:**\n" ++
  "• Send me SVG files (one or multiple)\n" ++
  "• Files will be automatically resized to 512×512 pixels\n" ++
  "• I'll convert them to TGS format and send them back\n\n" ++
  "📋 **Requirements:**\n" ++
  "• SVG format only\n" ++
  "• Maximum file size: 5MB\n" ++
  "• Batch processing: up to 15 files at once\n\n" ++
  "🚀 **Ready to convert your SVG files!**"

/-- `SimpleSVGToTGSBot.start_command` (`src/simple_bot.py:288-307`): no
ban check — record the user and reply with the greeting. -/
def start_command (mod : ModState) (u chat : Nat) : ModState × List Send :=
  ({ mod with all_users := insert u mod.all_users },
    [Send.message chat welcomeText])

/-- What one document-upload handler call produced. -/
structure HandlerResult where
  mod : ModState
  bat : BatchState
  sends : List Send
  scheduled : Bool
  deriving DecidableEq

/-- Reply for a non-`.svg` document in `handle_svg_document`
(`src/simple_bot.py:329-332`). -/
def onlySvgAcceptedText : String :=
  "❌ Only SVG files are accepted.\nPlease send a valid SVG file."

/-- Reply for an oversize document (`src/simple_bot.py:339-342`); its
float-formatted size interpolation is elided. -/
def fileTooLargeText : String := "❌ File too large."

/-- `SimpleSVGToTGSBot.handle_svg_document` (`src/simple_bot.py:309-368`):
banned users get the ban notice and nothing else happens; otherwise the
user is recorded, the document is checked (present, `.svg` name, within
the size limit) and the downloaded bytes are handed to `add_to_batch`.
`doc` carries the document's `file_name` and `file_size` (`none` = no
document); `file_data` is the downloaded byte string (the download
failure replies are not modelled). -/
def handle_svg_document (cfg : SimpleConfig) (mod : ModState) (bat : BatchState)
    (u chat : Nat) (doc : Option (String × Nat)) (file_data : List Nat) :
    HandlerResult :=
  if u ∈ mod.banned_users then
    { mod := mod, bat := bat, sends := [Send.message chat bannedNoticeText]
      scheduled := false }
  else
    let mod1 := { mod with all_users := insert u mod.all_users }
    match doc with
    | none =>
      { mod := mod1, bat := bat
        sends := [Send.message chat "❌ No document received."], scheduled := false }
    | some (file_name, file_size) =>
      if !(listEndsWith ".svg".toList (lowerChars file_name)) then
        { mod := mod1, bat := bat, sends := [Send.message chat onlySvgAcceptedText]
          scheduled := false }
      else if file_size > cfg.max_file_size then
        { mod := mod1, bat := bat, sends := [Send.message chat fileTooLargeText]
          scheduled := false }
      else
        let r := add_to_batch cfg bat u chat { data := file_data, filename := file_name }
        { mod := mod1, bat := r.state, sends := r.sends, scheduled := r.scheduled }

/-- Shape of an update reaching `handle_general_message`: a document
(with its possibly missing file name), a photo, a non-empty text (with
whether it starts with `/`), or anything else. -/
inductive GenMessage where
  | document (file_name : Option String)
  | photo
  | text (startsWithSlash : Bool)
  | other
  deriving DecidableEq

/-- Reply for a non-`.svg` document in `handle_general_message`
(`src/simple_bot.py:722-730`). -/
def onlySvgSupportedText : String :=
  "❌ Only SVG files are supported.\n\n" ++
  "Please send a valid SVG file for conversion to TGS format.\n" ++
  "You can create SVG files using tools like:\n" ++
  "• Inkscape (free)\n• Adobe Illustrator\n• Figma\n• Canva"

/-- Reply for a photo (`src/simple_bot.py:734-740`). -/
def photoReplyText : String :=
  "📷 I can only convert SVG files, not images.\n\n" ++
  "To convert your image to SVG:\n" ++
  "1. Use an online converter like convertio.co\n" ++
  "2. Or recreate it as an SVG in a vector graphics editor\n" ++
  "3. Then send me the SVG file!"

/-- Reply for plain text (`src/simple_bot.py:744-750`). -/
def plainTextReplyText : String :=
  "👋 Hi! Send me SVG files and I'll convert them to TGS format.\n\n" ++
  "📝 Supported: SVG files only\n" ++
  "🎯 Output: TGS stickers for Telegram\n" ++
  "⚡ Batch processing: Send multiple files at once!\n\n" ++
  "Type /start for more information."

/-- Fallback reply (`src/simple_bot.py:754-758`). -/
def notSureReplyText : String :=
  "🤔 I'm not sure what to do with that.\n\n" ++
  "Send me SVG files for conversion to TGS format.\nType /start for help."

/-- `SimpleSVGToTGSBot.handle_general_message` (`src/simple_bot.py:708-758`):
banned users are silently ignored (no reply, no state change); otherwise
the user is recorded and the appropriate reply is sent — except that a
document whose name does end with `.svg` falls through the `if` chain
with no reply at all. -/
def handle_general_message (mod : ModState) (u chat : Nat) (m : GenMessage) :
    ModState × List Send :=
  if u ∈ mod.banned_users then (mod, [])
  else
    let mod1 := { mod with all_users := insert u mod.all_users }
    match m with
    | GenMessage.document fn =>
      let file_name := fn.getD "unknown"
      if !(listEndsWith ".svg".toList (lowerChars file_name)) then
        (mod1, [Send.message chat onlySvgSupportedText])
      else (mod1, [])
    | GenMessage.photo => (mod1, [Send.message chat photoReplyText])
    | GenMessage.text startsWithSlash =>
      if !startsWithSlash then (mod1, [Send.message chat plainTextReplyText])
      else (mod1, [Send.message chat notSureReplyText])
    | GenMessage.other => (mod1, [Send.message chat notSureReplyText])

/-! ### Stats and broadcast (`src/simple_bot.py:507-552, 609-627`) -/

/-- `SimpleSVGToTGSBot.stats_command` (`src/simple_bot.py:609-627`): the
three numbers interpolated into the statistics reply — total users,
banned users, and `active_users = total_users - banned_users` (a length
difference, computed on Python ints, hence `Int` here).  `none` models
the permission-denied reply of a non-admin caller. -/
def stats_command (st : ModState) (actor : Nat) : Option (Nat × Nat × Int) :=
  if actor ∉ st.admin_users then none
  else
    some (st.all_users.card, st.banned_users.card,
      (st.all_users.card : Int) - (st.banned_users.card : Int))

/-- The broadcast fan-out loop (`src/simple_bot.py:536-543`): attempt a
send to every listed user id in order; `sendOk` tells which attempts the
transport accepts (an exception increments `failed_count` and the loop
continues).  Returns the successful sends and the two counters. -/
def broadcastLoop (text : String) (sendOk : Nat → Bool) :
    List Nat → List Send × Nat × Nat
  | [] => ([], 0, 0)
  | uid :: rest =>
    let q := broadcastLoop text sendOk rest
    if sendOk uid then (Send.message uid text :: q.1, q.2.1 + 1, q.2.2)
    else (q.1, q.2.1, q.2.2 + 1)

/-- What one `/broadcast` invocation produced. -/
structure BroadcastResult where
  recipients : List Nat
  sent : Nat
  failed : Nat
  sends : List Send
  deriving DecidableEq

/-- Permission-denied reply used by every admin command. -/
def noPermissionText : String := "❌ You don't have permission to use this command."

/-- `/broadcast` usage reply (`src/simple_bot.py:516-519`). -/
def broadcastUsageText : String :=
  "📢 Usage: /broadcast <message>\n\nThis command will send a message to all bot users."

/-- `SimpleSVGToTGSBot.broadcast_command` (`src/simple_bot.py:507-552`):
admin-only; with arguments present, iterate over
`list(self.config.all_users - self.config.banned_users)` (embedded in
ascending order — Python's set iteration order is arbitrary), counting
sent/failed, then edit the confirmation message to the summary.
`confMsgId` is the transport-assigned id of the confirmation message.
The moderation state is not modified. -/
def broadcast_command (st : ModState) (actor chat confMsgId : Nat)
    (args : List String) (sendOk : Nat → Bool) : BroadcastResult :=
  if actor ∉ st.admin_users then
    { recipients := [], sent := 0, failed := 0
      sends := [Send.message chat noPermissionText] }
  else if args = [] then
    { recipients := [], sent := 0, failed := 0
      sends := [Send.message chat broadcastUsageText] }
  else
    let message_text := " ".intercalate args
    let user_ids := (st.all_users \ st.banned_users).sort (· ≤ ·)
    if user_ids = [] then
      { recipients := [], sent := 0, failed := 0
        sends := [Send.message chat "❌ No users found to broadcast to."] }
    else
      let q := broadcastLoop message_text sendOk user_ids
      { recipients := user_ids, sent := q.2.1, failed := q.2.2
        sends :=
          [Send.message chat
              ("📢 Starting broadcast to " ++ toString user_ids.length ++ " users...")] ++
            q.1 ++
            [Send.editMessage chat confMsgId
                ("📢 Broadcast completed!\n✅ Sent: " ++ toString q.2.1 ++
                  "\n❌ Failed: " ++ toString q.2.2 ++
                  "\n📊 Total users: " ++ toString user_ids.length)] }

/-! ### Concrete fixtures used by witnesses and counterexamples -/

/-- A small well-formed SVG upload: 41 bytes, default-namespace root
(`<svg xmlns="http://www.w3.org/2000/svg"/>`), which `ET.fromstring`
expands to the namespaced root tag. -/
def plainSvgFile : SvgFile :=
  { content := "<svg xmlns=\"http://www.w3.org/2000/svg\"/>"
    size := 41
    parsedRoot := some "\x7bhttp://www.w3.org/2000/svg\x7dsvg" }

/-- A one-byte `.svg` upload named `a.svg`. -/
def fileA : FileEntry := { data := [1], filename := "a.svg" }

/-- A one-byte `.svg` upload named `b.svg`. -/
def fileB : FileEntry := { data := [2], filename := "b.svg" }

/-- The `k`-th of a family of distinct uploads. -/
def sampleFile (k : Nat) : FileEntry :=
  { data := [k], filename := "f" ++ toString k ++ ".svg" }

/-- A batch state in which user 5 already holds 15 files — the
configured `max_batch_size`. -/
def stC10 : BatchState :=
  { user_batches := [(5, (List.range 15).map sampleFile)], processing_tasks := [5] }

/-- A batch state in which user 5 holds the single file `fileA`. -/
def stC5 : BatchState := { user_batches := [(5, [fileA])], processing_tasks := [5] }

/-- An environment in which every conversion succeeds. -/
def oracleC5 : FileEntry → FileOutcome := fun _ => FileOutcome.converted [9]

/-- A moderation state in which user 5 is banned and nobody else is
known. -/
def modC2 : ModState := { admin_users := ∅, banned_users := {5}, all_users := ∅ }

/-- An empty batch state. -/
def batEmpty : BatchState := { user_batches := [], processing_tasks := [] }

/-- A moderation state in which the banned user 2 was never a known
user: `all_users = \x7b3\x7d`, `banned_users = \x7b2\x7d`. -/
def stC8 : ModState := { admin_users := {1}, banned_users := {2}, all_users := {3} }

/-- A moderation state whose banned set is contained in the known set. -/
def stW8 : ModState := { admin_users := {1}, banned_users := {2}, all_users := {2, 3} }

/-- Admin 9; known users 1, 2, 3 of whom 2 is banned. -/
def modC7 : ModState := { admin_users := {9}, banned_users := {2}, all_users := {1, 2, 3} }

lemma owner_safe_step (cfg : SimpleConfig) (st : ModState) (op : ModOp)
    (h : cfg.owner_id ∈ st.admin_users ∧ cfg.owner_id ∉ st.banned_users) :
    cfg.owner_id ∈ (modStep cfg st op).admin_users ∧
      cfg.owner_id ∉ (modStep cfg st op).banned_users := by
  obtain ⟨hadm, hban⟩ := h
  cases op with
  | ban a t =>
    simp only [modStep, banStep]
    split
    · exact ⟨hadm, hban⟩
    · cases t with
      | none => exact ⟨hadm, hban⟩
      | some v =>
        simp only
        split
        · exact ⟨hadm, hban⟩
        · split
          · exact ⟨hadm, hban⟩
          · refine ⟨hadm, ?_⟩
            simp only [Finset.mem_insert]
            rintro (hv | hv)
            · rename_i hvo _
              exact hvo hv.symm
            · exact hban hv
  | unban a t =>
    simp only [modStep, unbanStep]
    split
    · exact ⟨hadm, hban⟩
    · cases t with
      | none => exact ⟨hadm, hban⟩
      | some v =>
        refine ⟨hadm, ?_⟩
        simp only [Finset.mem_erase]
        rintro ⟨-, hv⟩
        exact hban hv
  | makeAdmin a t =>
    simp only [modStep, makeAdminStep]
    split
    · exact ⟨hadm, hban⟩
    · cases t with
      | none => exact ⟨hadm, hban⟩
      | some v =>
        refine ⟨?_, hban⟩
        simp only [Finset.mem_insert]
        exact Or.inr hadm
  | removeAdmin a t =>
    simp only [modStep, removeAdminStep]
    split
    · exact ⟨hadm, hban⟩
    · cases t with
      | none => exact ⟨hadm, hban⟩
      | some v =>
        simp only
        split
        · exact ⟨hadm, hban⟩
        · refine ⟨?_, hban⟩
          simp only [Finset.mem_erase]
          rename_i hvo
          exact ⟨fun he => hvo he.symm, hadm⟩

lemma owner_safe_runModOps (cfg : SimpleConfig) (st : ModState) (ops : List ModOp)
    (h : cfg.owner_id ∈ st.admin_users ∧ cfg.owner_id ∉ st.banned_users) :
    cfg.owner_id ∈ (runModOps cfg st ops).admin_users ∧
      cfg.owner_id ∉ (runModOps cfg st ops).banned_users := by
  induction ops generalizing st with
  | nil => exact h
  | cons op rest ih => exact ih _ (owner_safe_step cfg st op h)

/-- C3: for every state reachable by any sequence of ban/unban/makeAdmin/
removeAdmin operations from the initial state (which seeds the configured
non-zero owner id into `admin_users`), the owner's id is a member of the
admin set, is never removed from it, and is never added to the banned set. -/
theorem owner_always_admin_never_banned (cfg : SimpleConfig)
    (hOwner : cfg.owner_id ≠ 0) (ops : List ModOp) :
    cfg.owner_id ∈ (runModOps cfg (initModState cfg) ops).admin_users ∧
      cfg.owner_id ∉ (runModOps cfg (initModState cfg) ops).banned_users := by
  apply owner_safe_runModOps
  constructor
  · simp [initModState, hOwner]
  · simp [initModState]

/-- C3 witness: the invariant instantiated with the default owner id and a
concrete operation sequence that exercises every command, including an
admin's attempt to ban the owner and the owner's attempt to self-demote. -/
theorem owner_always_admin_never_banned_witness :
    (1096693642 : Nat) ≠ 0 ∧
      (1096693642 ∈ (runModOps (defaultConfig 1096693642)
          (initModState (defaultConfig 1096693642))
          [ModOp.makeAdmin 1096693642 (some 7), ModOp.ban 7 (some 1096693642),
           ModOp.removeAdmin 1096693642 (some 1096693642),
           ModOp.ban 1096693642 (some 7),
           ModOp.unban 1096693642 (some 7)]).admin_users ∧
        1096693642 ∉ (runModOps (defaultConfig 1096693642)
          (initModState (defaultConfig 1096693642))
          [ModOp.makeAdmin 1096693642 (some 7), ModOp.ban 7 (some 1096693642),
           ModOp.removeAdmin 1096693642 (some 1096693642),
           ModOp.ban 1096693642 (some 7),
           ModOp.unban 1096693642 (some 7)]).banned_users) :=
  ⟨by decide,
    owner_always_admin_never_banned (defaultConfig 1096693642) (by decide) _⟩

/-! ### Association-list lemmas -/

lemma lookup_setBatch_self (l : List (Nat × List FileEntry)) (u : Nat)
    (fs : List FileEntry) : lookupBatch (setBatch l u fs) u = some fs := by
  induction l with
  | nil => simp [setBatch, lookupBatch]
  | cons p rest ih =>
    obtain ⟨v, g⟩ := p
    by_cases h : v = u
    · simp [setBatch, h, lookupBatch]
    · simp [setBatch, h, lookupBatch, ih]

lemma lookup_delBatch (l : List (Nat × List FileEntry)) (u : Nat) :
    lookupBatch (delBatch l u) u = none := by
  induction l with
  | nil => rfl
  | cons p rest ih =>
    obtain ⟨v, g⟩ := p
    by_cases h : v = u
    · simp [delBatch, h, ih]
    · simp [delBatch, h, lookupBatch, ih]

lemma addAll_existing (cfg : SimpleConfig) (u chat : Nat) (files : List FileEntry) :
    ∀ (st : BatchState) (fs : List FileEntry),
      lookupBatch st.user_batches u = some fs →
      lookupBatch (addAll cfg st u chat files).1.user_batches u = some (fs ++ files) ∧
        (addAll cfg st u chat files).2.1 = [] ∧
        (addAll cfg st u chat files).2.2 = 0 := by
  induction files with
  | nil =>
    intro st fs h
    simpa [addAll] using h
  | cons f rest ih =>
    intro st fs h
    have hstep :
        lookupBatch (add_to_batch cfg st u chat f).state.user_batches u =
          some (fs ++ [f]) := by
      simp [add_to_batch, h, lookup_setBatch_self]
    obtain ⟨h1, h2, h3⟩ := ih _ _ hstep
    have hsends : (add_to_batch cfg st u chat f).sends = [] := by
      simp [add_to_batch, h]
    have hsch : (add_to_batch cfg st u chat f).scheduled = false := by
      simp [add_to_batch, h]
    refine ⟨?_, ?_, ?_⟩
    · rw [addAll]
      simpa [List.append_assoc] using h1
    · rw [addAll]
      simp [hsends, h2]
    · rw [addAll]
      simp [hsch, h3]

/-- C1: N uploads from the same user arriving within the debounce window
(no processing task fires in between) leave the user with exactly one
pending batch holding all N files in arrival order, send exactly one
initial status message, and schedule exactly one processing task. -/
theorem batch_collects_all_files_one_status (cfg : SimpleConfig) (st : BatchState)
    (u chat : Nat) (files : List FileEntry)
    (hempty : lookupBatch st.user_batches u = none) (hne : files ≠ []) :
    lookupBatch (addAll cfg st u chat files).1.user_batches u = some files ∧
      (addAll cfg st u chat files).2.1 = [Send.message chat statusWaitText] ∧
      (addAll cfg st u chat files).2.2 = 1 := by
  cases files with
  | nil => exact absurd rfl hne
  | cons f rest =>
    have hstep :
        lookupBatch (add_to_batch cfg st u chat f).state.user_batches u = some [f] := by
      simp [add_to_batch, hempty, lookup_setBatch_self]
    obtain ⟨h1, h2, h3⟩ := addAll_existing cfg u chat rest _ _ hstep
    have hsends : (add_to_batch cfg st u chat f).sends =
        [Send.message chat statusWaitText] := by
      simp [add_to_batch, hempty]
    have hsch : (add_to_batch cfg st u chat f).scheduled = true := by
      simp [add_to_batch, hempty]
    refine ⟨?_, ?_, ?_⟩
    · rw [addAll]
      simpa using h1
    · rw [addAll]
      simp [hsends, h2]
    · rw [addAll]
      simp [hsch, h3]

/-- C1 witness: user 5 uploads `a.svg` then `b.svg` into an empty state:
one batch `[fileA, fileB]`, one status message, one scheduled task. -/
theorem batch_collects_all_files_one_status_witness :
    lookupBatch batEmpty.user_batches 5 = none ∧
      ([fileA, fileB] : List FileEntry) ≠ [] ∧
      (lookupBatch (addAll (defaultConfig 1) batEmpty 5 7 [fileA, fileB]).1.user_batches 5 =
          some [fileA, fileB] ∧
        (addAll (defaultConfig 1) batEmpty 5 7 [fileA, fileB]).2.1 =
          [Send.message 7 statusWaitText] ∧
        (addAll (defaultConfig 1) batEmpty 5 7 [fileA, fileB]).2.2 = 1) :=
  ⟨rfl, by decide,
    batch_collects_all_files_one_status (defaultConfig 1) batEmpty 5 7 [fileA, fileB]
      rfl (by decide)⟩

/-- C10: appending to an existing pending batch succeeds for every
current length — no bound is checked — and the result of `add_to_batch`
is identical under any two configurations, so the configured
`max_batch_size` is never consulted. -/
theorem add_to_batch_unbounded (cfg cfg2 : SimpleConfig) (st : BatchState)
    (u chat : Nat) (f : FileEntry) (fs : List FileEntry)
    (h : lookupBatch st.user_batches u = some fs) :
    lookupBatch (add_to_batch cfg st u chat f).state.user_batches u =
        some (fs ++ [f]) ∧
      add_to_batch cfg st u chat f = add_to_batch cfg2 st u chat f := by
  constructor
  · simp [add_to_batch, h, lookup_setBatch_self]
  · rfl

/-- C10 witness: a batch already holding 15 files (the configured
`max_batch_size`) accepts a 16th, and raising `max_batch_size` to 1000
changes nothing. -/
theorem add_to_batch_unbounded_witness :
    lookupBatch stC10.user_batches 5 = some ((List.range 15).map sampleFile) ∧
      (lookupBatch (add_to_batch (defaultConfig 1) stC10 5 7
            (sampleFile 15)).state.user_batches 5 =
          some ((List.range 15).map sampleFile ++ [sampleFile 15]) ∧
        add_to_batch (defaultConfig 1) stC10 5 7 (sampleFile 15) =
          add_to_batch { defaultConfig 1 with max_batch_size := 1000 } stC10 5 7
            (sampleFile 15)) :=
  ⟨rfl,
    add_to_batch_unbounded (defaultConfig 1) { defaultConfig 1 with max_batch_size := 1000 }
      stC10 5 7 (sampleFile 15) _ rfl⟩

lemma process_batch_state (st : BatchState) (u chat status_message_id : Nat)
    (oracle : FileEntry → FileOutcome) (crash : Bool) :
    (process_batch_after_delay st u chat status_message_id oracle crash).1 =
      { user_batches := delBatch st.user_batches u
        processing_tasks := st.processing_tasks.filter (· ≠ u) } := by
  unfold process_batch_after_delay
  by_cases hb : (lookupBatch st.user_batches u).getD [] = []
  · simp [hb]
  · by_cases hc : crash
    · simp [hb, hc]
    · simp [hb, hc]

/-- C4: whatever the per-file outcomes and even when an unexpected
exception interrupts the run, `process_batch_after_delay` removes the
user's pending-batch slot and processing-task entry (the `finally`
block), and a subsequent upload from that user starts a fresh batch:
a new single-file pending batch, a new initial status message, and a
newly scheduled processing task. -/
theorem batch_teardown_fresh_restart (cfg : SimpleConfig) (st : BatchState)
    (u chat status_message_id chat2 : Nat) (oracle : FileEntry → FileOutcome)
    (crash : Bool) (f : FileEntry) :
    lookupBatch
        (process_batch_after_delay st u chat status_message_id oracle
          crash).1.user_batches u = none ∧
      u ∉ (process_batch_after_delay st u chat status_message_id oracle
          crash).1.processing_tasks ∧
      lookupBatch (add_to_batch cfg
          (process_batch_after_delay st u chat status_message_id oracle crash).1
          u chat2 f).state.user_batches u = some [f] ∧
      (add_to_batch cfg
          (process_batch_after_delay st u chat status_message_id oracle crash).1
          u chat2 f).sends = [Send.message chat2 statusWaitText] ∧
      (add_to_batch cfg
          (process_batch_after_delay st u chat status_message_id oracle crash).1
          u chat2 f).scheduled = true := by
  rw [process_batch_state st u chat status_message_id oracle crash]
  have hnone : lookupBatch (delBatch st.user_batches u) u = none := lookup_delBatch _ _
  refine ⟨hnone, ?_, ?_, ?_, ?_⟩
  · simp [List.mem_filter]
  · simp [add_to_batch, hnone, lookup_setBatch_self]
  · simp [add_to_batch, hnone]
  · simp [add_to_batch, hnone]

/-! ### C5: final summary -/

lemma getLast?_append_singleton {α : Type} (l : List α) (a : α) :
    (l ++ [a]).getLast? = some a :=
  List.getLast?_concat l

/-- C5 counterexample: a one-file batch whose conversion succeeds
(`succeeded = 1 > 0`, `failed = 0`): the final edit of the status
message carries the text `"Done ✅"`, which shows neither count — the
claim's "if succeeded > 0 the summary shows the counts" fails. -/
theorem final_summary_counterexample :
    (processLoop 7 oracleC5 [fileA]).2.1 = 1 ∧
      (processLoop 7 oracleC5 [fileA]).2.2 = 0 ∧
      (process_batch_after_delay stC5 5 7 9 oracleC5 false).2.getLast? =
        some (Send.editMessage 7 9 (finalStatusText 1 0)) ∧
      finalStatusText 1 0 = "Done ✅" ∧
      showsCounts 1 0 (finalStatusText 1 0) = false := by
  refine ⟨by decide, by decide, by decide, by decide, by decide⟩

/-- C5 (amended): after the loop the original status message is edited
to the final summary computed from the loop's counters, and that summary
names both counts only when `succeeded > 0` and `failed > 0`; with
`succeeded > 0` and `failed = 0` it is the bare `"Done ✅"`, and with
`succeeded = 0` it is the all-failed message. -/
theorem final_summary_spec (st : BatchState) (u chat status_message_id : Nat)
    (oracle : FileEntry → FileOutcome)
    (h : (lookupBatch st.user_batches u).getD [] ≠ []) :
    (process_batch_after_delay st u chat status_message_id oracle false).2.getLast? =
        some (Send.editMessage chat status_message_id
          (finalStatusText
            (processLoop chat oracle ((lookupBatch st.user_batches u).getD [])).2.1
            (processLoop chat oracle ((lookupBatch st.user_batches u).getD [])).2.2)) ∧
      (∀ s f, 0 < s → 0 < f →
        finalStatusText s f =
          "Done ✅" ++ "\n✅ " ++ toString s ++ " converted | ❌ " ++
            toString f ++ " failed") ∧
      (∀ s, 0 < s → finalStatusText s 0 = "Done ✅") ∧
      (∀ f, finalStatusText 0 f = "❌ No files could be converted") := by
  refine ⟨?_, ?_, ?_, ?_⟩
  · unfold process_batch_after_delay
    simp only [h, if_false, Bool.false_eq_true, if_neg, ite_false]
    rw [show ∀ (a b : Send) (l : List Send), [a] ++ l ++ [b] = (a :: l) ++ [b] by
      intro a b l; simp]
    exact getLast?_append_singleton _ _
  · intro s f hs hf
    simp [finalStatusText, hs, hf]
  · intro s hs
    simp [finalStatusText, hs]
  · intro f
    simp [finalStatusText]

/-- C5 witness: the amended summary specification applied to the
concrete one-file batch of user 5. -/
theorem final_summary_spec_witness :
    (lookupBatch stC5.user_batches 5).getD [] ≠ [] ∧
      ((process_batch_after_delay stC5 5 7 9 oracleC5 false).2.getLast? =
          some (Send.editMessage 7 9
            (finalStatusText
              (processLoop 7 oracleC5 ((lookupBatch stC5.user_batches 5).getD [])).2.1
              (processLoop 7 oracleC5 ((lookupBatch stC5.user_batches 5).getD [])).2.2)) ∧
        (∀ s f, 0 < s → 0 < f →
          finalStatusText s f =
            "Done ✅" ++ "\n✅ " ++ toString s ++ " converted | ❌ " ++
              toString f ++ " failed") ∧
        (∀ s, 0 < s → finalStatusText s 0 = "Done ✅") ∧
        (∀ f, finalStatusText 0 f = "❌ No files could be converted")) :=
  ⟨by decide, final_summary_spec stC5 5 7 9 oracleC5 (by decide)⟩

/-! ### C6: validator lemmas -/

lemma listStartsWith_self_append (l m : List Char) :
    listStartsWith l (l ++ m) = true := by
  induction l with
  | nil => rfl
  | cons a as ih => simp [listStartsWith, ih]

lemma listEndsWith_append (pre s : List Char) :
    listEndsWith s (pre ++ s) = true := by
  unfold listEndsWith
  rw [List.reverse_append]
  exact listStartsWith_self_append _ _

lemma localNameAux_split (l : List Char) :
    ∀ rest, localNameAux l = some rest → ∃ pre, l = pre ++ rbraceChar :: rest := by
  induction l with
  | nil =>
    intro rest h
    exact absurd h (by simp [localNameAux])
  | cons c cs ih =>
    intro rest h
    by_cases hc : c = rbraceChar
    · subst hc
      have h2 : cs = rest := by simpa [localNameAux] using h
      exact ⟨[], by simp [h2]⟩
    · simp only [localNameAux, if_neg hc] at h
      obtain ⟨pre, hp⟩ := ih rest h
      exact ⟨c :: pre, by simp [hp]⟩

lemma localName_eq_svg_split (t : String) (h : localName t = "svg".toList) :
    ∃ pre, t.toList = pre ++ "svg".toList := by
  unfold localName at h
  cases heq : localNameAux t.toList with
  | none =>
    simp only [heq] at h
    exact ⟨[], h⟩
  | some rest =>
    simp only [heq] at h
    obtain ⟨pre, hp⟩ := localNameAux_split _ _ heq
    refine ⟨pre ++ [rbraceChar], ?_⟩
    rw [hp, h]
    simp

lemma lower_endsWith_svg (t : String) (h : localName t = "svg".toList) :
    listEndsWith "svg".toList (lowerChars t) = true := by
  obtain ⟨pre, hp⟩ := localName_eq_svg_split t h
  unfold lowerChars
  rw [hp, List.map_append]
  rw [show ("svg".toList).map Char.toLower = "svg".toList from by decide]
  exact listEndsWith_append _ _

/-- C6 (amended): a byte sequence within the size limit, well-formed
with root local name `svg`, whose filename ends with `.svg`
case-insensitively, passes `validate_file` — provided its lowercased
decoded text contains `<svg` or `<?xml` (the pre-check of
`validate_svg_format`, which the original claim omits). -/
theorem validate_file_success (maxFileSize : Nat) (f : SvgFile) (filename : String)
    (hsize : f.size ≤ maxFileSize)
    (hwf : wellFormedWithSvgRoot f)
    (hext : listEndsWith ".svg".toList (lowerChars filename) = true)
    (hpre : (listHasSub "<svg".toList (lowerChars f.content) ||
        listHasSub "<?xml".toList (lowerChars f.content)) = true) :
    validate_file maxFileSize f filename = true := by
  obtain ⟨t, hroot, hloc⟩ := hwf
  have hsvg := lower_endsWith_svg t hloc
  simp only [validate_file, validate_file_size, validate_svg_format, hroot, hext, hpre,
    hsvg, Bool.not_true]
  simp [Nat.not_lt.mpr hsize]

/-- C6 witness: `validate_file` accepts the default-namespace 41-byte
document `plainSvgFile` under the default 5 MiB limit. -/
theorem validate_file_success_witness :
    plainSvgFile.size ≤ (defaultConfig 1096693642).max_file_size ∧
      wellFormedWithSvgRoot plainSvgFile ∧
      listEndsWith ".svg".toList (lowerChars "a.svg") = true ∧
      (listHasSub "<svg".toList (lowerChars plainSvgFile.content) ||
          listHasSub "<?xml".toList (lowerChars plainSvgFile.content)) = true ∧
      validate_file (defaultConfig 1096693642).max_file_size plainSvgFile "a.svg" =
        true :=
  ⟨by decide, ⟨"\x7bhttp://www.w3.org/2000/svg\x7dsvg", rfl, by decide⟩, by decide,
    by decide,
    validate_file_success (defaultConfig 1096693642).max_file_size plainSvgFile "a.svg"
      (by decide) ⟨"\x7bhttp://www.w3.org/2000/svg\x7dsvg", rfl, by decide⟩
      (by decide) (by decide)⟩

/-- C6 counterexample: `nsSvgFile` is 45 bytes (far below the limit),
well-formed markup whose root's local name is `svg`, and the filename
`icon.svg` has the right extension — yet `validate_file` rejects it,
because its serialisation contains neither `<svg` nor `<?xml`. -/
theorem validate_file_counterexample :
    nsSvgFile.size ≤ (defaultConfig 1096693642).max_file_size ∧
      wellFormedWithSvgRoot nsSvgFile ∧
      listEndsWith ".svg".toList (lowerChars "icon.svg") = true ∧
      validate_file (defaultConfig 1096693642).max_file_size nsSvgFile "icon.svg" =
        false :=
  ⟨by decide, ⟨"\x7bhttp://www.w3.org/2000/svg\x7dsvg", rfl, by decide⟩, by decide,
    by decide⟩

/-! ### C9: converter outcomes -/

/-- C9: conversion reports failure exactly when the external process
exits non-zero or the output file is missing or empty; with exit code 0
and a non-empty output it reports success — in particular also when the
output exceeds the 64 KiB soft ceiling (100 KiB here), which only logs
an advisory. -/
theorem converter_outcomes (rc : Int) (output : Option Nat) (tgsBytes : List Nat) :
    (run_lottie_convert rc output = true ↔ rc = 0 ∧ ∃ n, output = some n ∧ 0 < n) ∧
      (convert_svg_to_tgs rc output tgsBytes = some tgsBytes ↔
        rc = 0 ∧ ∃ n, output = some n ∧ 0 < n) ∧
      run_lottie_convert 0 (some (100 * 1024)) = true ∧
      convert_svg_to_tgs 0 (some (100 * 1024)) tgsBytes = some tgsBytes := by
  have hrun : run_lottie_convert rc output = true ↔
      rc = 0 ∧ ∃ n, output = some n ∧ 0 < n := by
    unfold run_lottie_convert
    by_cases hrc : rc = 0
    · subst hrc
      cases output with
      | none => simp
      | some sz =>
        by_cases hz : sz = 0
        · subst hz
          simp
        · simp [hz, Nat.pos_of_ne_zero hz]
    · simp [hrc]
  have hsome : run_lottie_convert rc output = true → output.isSome = true := by
    intro h
    rcases (hrun.mp h).2 with ⟨n, hn, -⟩
    simp [hn]
  have hconv : convert_svg_to_tgs rc output tgsBytes = some tgsBytes ↔
      run_lottie_convert rc output = true := by
    unfold convert_svg_to_tgs
    cases hx : run_lottie_convert rc output with
    | false => simp
    | true => simp [hsome hx]
  exact ⟨hrun, hconv.trans hrun, rfl, rfl⟩

/-! ### C7: broadcast -/

lemma broadcastLoop_counts (text : String) (sendOk : Nat → Bool) (l : List Nat) :
    (broadcastLoop text sendOk l).2.1 + (broadcastLoop text sendOk l).2.2 = l.length := by
  induction l with
  | nil => rfl
  | cons uid rest ih =>
    unfold broadcastLoop
    cases hok : sendOk uid <;> simp [hok] <;> omega

/-- C7: for an admin caller with a message, `/broadcast` attempts a send
to exactly the members of `all_users − banned_users`, and its sent count
plus its failed count equals the size of that set. -/
theorem broadcast_exact_recipients (st : ModState) (actor chat confMsgId : Nat)
    (args : List String) (sendOk : Nat → Bool)
    (hadm : actor ∈ st.admin_users) (hargs : args ≠ []) :
    (∀ x, x ∈ (broadcast_command st actor chat confMsgId args sendOk).recipients ↔
        x ∈ st.all_users \ st.banned_users) ∧
      (broadcast_command st actor chat confMsgId args sendOk).sent +
          (broadcast_command st actor chat confMsgId args sendOk).failed =
        (st.all_users \ st.banned_users).card := by
  by_cases hnil : (st.all_users \ st.banned_users).sort (· ≤ ·) = []
  · have hlen : ((st.all_users \ st.banned_users).sort (· ≤ ·)).length =
        (st.all_users \ st.banned_users).card := Finset.length_sort _
    rw [hnil] at hlen
    have hempty : st.all_users \ st.banned_users = ∅ :=
      Finset.card_eq_zero.mp hlen.symm
    constructor
    · intro x
      simp [broadcast_command, hadm, hargs, hnil, hempty]
    · simp [broadcast_command, hadm, hargs, hnil, hempty]
  · constructor
    · intro x
      simp [broadcast_command, hadm, hargs, hnil]
    · simp [broadcast_command, hadm, hargs, hnil, broadcastLoop_counts]

/-- C7 witness: admin 9 broadcasts `"hello"` to known users 1, 2, 3 with
user 2 banned; the transport rejects the send to 3. -/
theorem broadcast_exact_recipients_witness :
    9 ∈ modC7.admin_users ∧ (["hello"] : List String) ≠ [] ∧
      ((∀ x, x ∈ (broadcast_command modC7 9 7 11 ["hello"] (fun u => u != 3)).recipients ↔
          x ∈ modC7.all_users \ modC7.banned_users) ∧
        (broadcast_command modC7 9 7 11 ["hello"] (fun u => u != 3)).sent +
            (broadcast_command modC7 9 7 11 ["hello"] (fun u => u != 3)).failed =
          (modC7.all_users \ modC7.banned_users).card) :=
  ⟨by decide, by decide,
    broadcast_exact_recipients modC7 9 7 11 ["hello"] (fun u => u != 3)
      (by decide) (by decide)⟩

/-! ### C8: stats -/

/-- C8 counterexample: with known users `\x7b3\x7d` and banned users `\x7b2\x7d`
(an id banned without ever being known), `stats_command` reports
`active = 0`, while the size of `known − banned` is `1`. -/
theorem stats_active_counterexample :
    stats_command stC8 1 = some (1, 1, 0) ∧
      ((stC8.all_users \ stC8.banned_users).card : Int) = 1 ∧
      (0 : Int) ≠ 1 := by
  refine ⟨by decide, by decide, by decide⟩

/-- C8 (amended): for an admin caller, `stats` returns the count of
known users, the count of banned users, and an active count equal to the
count of known minus the count of banned (an integer difference of
sizes) — which equals the size of `known − banned` exactly when every
banned user is known. -/
theorem stats_counts (st : ModState) (actor : Nat) (hadm : actor ∈ st.admin_users) :
    stats_command st actor =
        some (st.all_users.card, st.banned_users.card,
          (st.all_users.card : Int) - (st.banned_users.card : Int)) ∧
      (st.banned_users ⊆ st.all_users →
        (st.all_users.card : Int) - (st.banned_users.card : Int) =
          ((st.all_users \ st.banned_users).card : Int)) := by
  constructor
  · simp [stats_command, hadm]
  · intro hsub
    rw [Finset.card_sdiff hsub]
    rw [Nat.cast_sub (Finset.card_le_card hsub)]

/-- C8 witness: the amended statement at a state whose banned set is
contained in the known set. -/
theorem stats_counts_witness :
    1 ∈ stW8.admin_users ∧
      (stats_command stW8 1 =
          some (stW8.all_users.card, stW8.banned_users.card,
            (stW8.all_users.card : Int) - (stW8.banned_users.card : Int)) ∧
        (stW8.banned_users ⊆ stW8.all_users →
          (stW8.all_users.card : Int) - (stW8.banned_users.card : Int) =
            ((stW8.all_users \ stW8.banned_users).card : Int))) :=
  ⟨by decide, stats_counts stW8 1 (by decide)⟩

/-! ### C2: banned-user gating -/

/-- C2 counterexample: banned user 5's upload attempt is answered with
the ban-notice reply — one transport send, not zero; and `/start` from
the same banned user is answered with the greeting. -/
theorem banned_upload_reply_counterexample :
    (handle_svg_document (defaultConfig 1) modC2 batEmpty 5 7
          (some ("a.svg", 100)) []).sends = [Send.message 7 bannedNoticeText] ∧
      [Send.message 7 bannedNoticeText].length ≠ 0 ∧
      (start_command modC2 5 7).2.length ≠ 0 := by
  refine ⟨by decide, by decide, by decide⟩

/-- C2 (amended): a banned user's upload produces exactly one transport
send — the ban notice — and changes neither the moderation nor the batch
state; a banned user's general message produces zero sends and no state
change; but commands are not gated on the ban: `/start` still records
the user and replies with the greeting. -/
theorem banned_user_gating (cfg : SimpleConfig) (mod : ModState) (bat : BatchState)
    (u chat : Nat) (doc : Option (String × Nat)) (file_data : List Nat)
    (m : GenMessage) (hban : u ∈ mod.banned_users) :
    handle_svg_document cfg mod bat u chat doc file_data =
        { mod := mod, bat := bat, sends := [Send.message chat bannedNoticeText],
          scheduled := false } ∧
      handle_general_message mod u chat m = (mod, []) ∧
      start_command mod u chat =
        ({ mod with all_users := insert u mod.all_users },
          [Send.message chat welcomeText]) := by
  refine ⟨?_, ?_, rfl⟩
  · simp [handle_svg_document, hban]
  · simp [handle_general_message, hban]

/-- C2 witness: the amended statement at the concrete banned user 5. -/
theorem banned_user_gating_witness :
    5 ∈ modC2.banned_users ∧
      (handle_svg_document (defaultConfig 1) modC2 batEmpty 5 7
            (some ("a.svg", 100)) [] =
          { mod := modC2, bat := batEmpty,
            sends := [Send.message 7 bannedNoticeText], scheduled := false } ∧
        handle_general_message modC2 5 7 GenMessage.photo = (modC2, []) ∧
        start_command modC2 5 7 =
          ({ modC2 with all_users := insert 5 modC2.all_users },
            [Send.message 7 welcomeText])) :=
  ⟨by decide,
    banned_user_gating (defaultConfig 1) modC2 batEmpty 5 7 (some ("a.svg", 100)) []
      GenMessage.photo (by decide)⟩
